import Mathlib

/-
Verification of the Chabad MP3 scraper/uploader repository.

The JavaScript sources are shallowly embedded as executable Lean functions:
  - the authenticated S3 uploader script (generateS3Key, sanitizeMetadataValue,
    downloadAuthenticatedMp3, checkLoginStatus, processSingleMp3, processAllMp3s,
    the run-summary success-rate formatting),
  - mp3_scraper.js (the recursive "view all" traversal with its visited-URL
    ledger, checkForCaptcha, extractMetadata),
  - paginated_scraper.js (scrapeCurrentPage, the two-phase pagination run,
    extractMetadata).
Browser/DOM effects are abstracted: a page is represented by the data the
scripts read from it (selector hits, element texts, hrefs, title, body text),
and navigation is recorded as an event trace.  JavaScript strings are Lean
strings; regular-expression character classes are modelled over ASCII, which
covers every character the scripts' own patterns mention.
-/

/-! ## String helpers modelling the JavaScript primitives used by the scripts -/

/-- JS `String.prototype.includes`: substring containment, scanning left to right. -/
def isSubList (needle : List Char) : List Char → Bool
  | [] => needle.isEmpty
  | c :: rest => needle.isPrefixOf (c :: rest) || isSubList needle rest

/-- `s.includes(pattern)` for JS strings. -/
def strIncludes (s pattern : String) : Bool :=
  isSubList pattern.data s.data

/-- `s.toLowerCase()` (ASCII model). -/
def strLower (s : String) : String :=
  String.mk (s.data.map Char.toLower)

/-- Whitespace recognised by JS `trim` / the `\s` regex class (ASCII part). -/
def isJsWs (c : Char) : Bool :=
  c == ' ' || c == '\t' || c == '\n' || c == '\r' || c.toNat == 11 || c.toNat == 12

/-- `s.trim()`. -/
def trimS (s : String) : String :=
  String.mk (((s.data.dropWhile isJsWs).reverse.dropWhile isJsWs).reverse)

/-- `s.startsWith(pattern)` for JS strings. -/
def strStartsWith (s pattern : String) : Bool :=
  pattern.data.isPrefixOf s.data

/-- `String(n).padStart(4, '0')`. -/
def padStart4 (s : String) : String :=
  if 4 ≤ s.length then s else String.mk (List.replicate (4 - s.length) '0') ++ s

/-! ## Uploader configuration constants (from the uploader script's `config`) -/

def retryAttempts : Nat := 3

def retryDelay : Nat := 3000

/-! ## Data model: one scraped MP3 entry (`mp3Data` in the scripts) -/

structure Mp3Metadata where
  title : Option String
  author : Option String
  topics : Option (List String)
  podcast : Option String
  synopsis : Option String
deriving DecidableEq

structure ContentRecord where
  videoUrl : String
  downloadUrl : String
  metadata : Mp3Metadata
  scrapedAt : String
deriving DecidableEq

/-! ## generateS3Key (uploader script) -/

/-- The character class kept by `replace(/[^a-zA-Z0-9\s\-]/g, '')`. -/
def keepTitleChar (c : Char) : Bool :=
  c.isAlpha || c.isDigit || isJsWs c || c == '-'

/-- `replace(/\s+/g, '-')`: collapse each whitespace run to a single hyphen.
The flag records whether the previous character was part of a whitespace run. -/
def collapseWsAux : Bool → List Char → List Char
  | _, [] => []
  | prevWs, c :: rest =>
    if isJsWs c then
      if prevWs then collapseWsAux true rest
      else '-' :: collapseWsAux true rest
    else c :: collapseWsAux false rest

/-- The title-cleaning pipeline of `generateS3Key`:
strip characters outside `[a-zA-Z0-9\s-]`, collapse whitespace runs to `-`,
lowercase, truncate to `n`. -/
def sanitizeTitle (title : String) (n : Nat) : String :=
  String.mk (((collapseWsAux false (title.data.filter keepTitleChar)).map Char.toLower).take n)

/-- `videoUrl.match(/\/aid\/(\d+)/)`: first position where `/aid/` is followed
by at least one digit; returns the maximal digit run there. -/
def extractAidAux : List Char → Option String
  | [] => none
  | c :: rest =>
    if "/aid/".data.isPrefixOf (c :: rest) then
      let digits := ((c :: rest).drop 5).takeWhile Char.isDigit
      if digits.isEmpty then extractAidAux rest else some (String.mk digits)
    else extractAidAux rest

def extractAid (s : String) : Option String :=
  extractAidAux s.data

/-- `generateS3Key(mp3Data, index)`.  When `metadata.title` is absent the JS
code throws (`.replace` called on `undefined`); that is modelled as `none`. -/
def generateS3Key (mp3Data : ContentRecord) (index : Nat) : Option String :=
  match mp3Data.metadata.title with
  | none => none
  | some title =>
    let aid := match extractAid mp3Data.videoUrl with
      | some d => d
      | none => "unknown"
    let isTanya := strIncludes mp3Data.videoUrl "/library/tanya/"
    let isRabbiGordon := strIncludes mp3Data.videoUrl "/multimedia/video_cdo/"
    let contentType := if isTanya then "tanya" else if isRabbiGordon then "rabbi-gordon" else "other"
    let cleanTitle := sanitizeTitle title 80
    let cleanFilename := sanitizeTitle title 100
    let paddedIndex := padStart4 (Nat.repr index)
    some (contentType ++ "/" ++ cleanTitle ++ "/" ++ aid ++ "/" ++ paddedIndex ++ "-" ++ cleanFilename ++ ".mp3")

/-! ## sanitizeMetadataValue (uploader script) -/

/-- `sanitizeMetadataValue(value)`: drop the falsy case, strip non-ASCII
(`[^\x20-\x7E]`), strip control characters (`[\x00-\x1F\x7F]`), trim,
truncate to 1024. -/
def sanitizeMetadataValue (value : String) : String :=
  if value = "" then ""
  else
    let step1 := value.data.filter (fun c => 0x20 ≤ c.toNat && c.toNat ≤ 0x7E)
    let step2 := step1.filter (fun c => !(c.toNat ≤ 0x1F || c.toNat == 0x7F))
    let trimmed := ((step2.dropWhile isJsWs).reverse.dropWhile isJsWs).reverse
    String.mk (trimmed.take 1024)

/-! ## checkLoginStatus (uploader script)

The page probe is `some content` when the protected-resource navigation
succeeds with page HTML `content`, and `none` when it throws (the `catch`
branch).  The JS function sets `basicCheck = true` and returns on it before
any of the probe logic runs; the probe logic is kept here verbatim as the
dead alternative. -/

def checkLoginStatus (probe : Option String) : Bool :=
  let basicCheck := true
  if basicCheck then true
  else
    match probe with
    | some pageContent =>
      let lower := strLower pageContent
      if strIncludes lower "login" || strIncludes lower "sign in" ||
          strIncludes lower "please log in" then false
      else if strIncludes pageContent "filedownload" || strIncludes pageContent "download" ||
          strIncludes pageContent "mp3" then true
      else true
    | none => true

/-! ## downloadAuthenticatedMp3 (uploader script)

`attemptSucceeds k` tells whether the k-th attempt (0-based `retryCount`)
finds a staged file in time.  The result records success, the number of
attempts actually made, and the list of inter-attempt delays slept. -/

def downloadAuthenticatedMp3 (attemptSucceeds : Nat → Bool) (retryCount : Nat) :
    Bool × Nat × List Nat :=
  if attemptSucceeds retryCount then (true, 1, [])
  else if retryCount < retryAttempts - 1 then
    let r := downloadAuthenticatedMp3 attemptSucceeds (retryCount + 1)
    (r.1, r.2.1 + 1, retryDelay :: r.2.2)
  else (false, 1, [])
termination_by retryAttempts - retryCount
decreasing_by omega

/-! ## processSingleMp3 / processAllMp3s (uploader script)

The download outcome for a record is abstracted as `Option Nat`: `none` when
`downloadAuthenticatedMp3` exhausted its retries (or the file never appeared),
`some fileSize` when a file of that byte size landed at the temp path. -/

inductive RecordResult where
  | uploaded (s3Key : String)
  | failed (msg : String)
deriving DecidableEq

def processSingleMp3 (mp3Data : ContentRecord) (index : Nat) (download : Option Nat) :
    RecordResult :=
  match download with
  | none => .failed "Download timeout or file not found"
  | some fileSize =>
    if fileSize < 1000 then .failed "File too small - likely an error page"
    else
      match generateS3Key mp3Data index with
      | none => .failed "Cannot read property of undefined title"
      | some s3Key => .uploaded s3Key

/-- The sequential per-record loop of `processAllMp3s`: the `try`/`catch`
around `processSingleMp3` turns a failure into a log entry and a counter
bump, and the loop always continues with the next record.  Returns
`(uploadedCount, failedCount, uploadLog)` where a log entry is the record's
1-based index with its status string. -/
def processAllMp3s : Nat → List (ContentRecord × Option Nat) → Nat × Nat × List (Nat × String)
  | _, [] => (0, 0, [])
  | i, (r, dl) :: rest =>
    let tail := processAllMp3s (i + 1) rest
    match processSingleMp3 r i dl with
    | .uploaded _ => (tail.1 + 1, tail.2.1, (i, "success") :: tail.2.2)
    | .failed _ => (tail.1, tail.2.1 + 1, (i, "failed") :: tail.2.2)

/-- The `successRate` field of `saveRAGMetadata`'s summary:
`((uploaded / (uploaded + failed)) * 100).toFixed(2) + "%"`, modelled with
round-to-nearest over rationals (`NaN%` when nothing was processed). -/
def toFixed2Percent (uploaded failed : Nat) : String :=
  let t := uploaded + failed
  if t = 0 then "NaN%"
  else
    let r := (uploaded * 10000 * 2 + t) / (2 * t)
    let ip := r / 100
    let fp := r % 100
    Nat.repr ip ++ "." ++ (if fp < 10 then "0" ++ Nat.repr fp else Nat.repr fp) ++ "%"

/-- The summary object written by `saveRAGMetadata`:
`(totalProcessed, successful, failed, successRate)`. -/
def saveRAGMetadataSummary (uploadedCount failedCount : Nat) : Nat × Nat × Nat × String :=
  (uploadedCount + failedCount, uploadedCount, failedCount,
    toFixed2Percent uploadedCount failedCount)

/-! ## mp3_scraper.js: site model and the recursive "view all" traversal

A site is a finite association list from (normalized absolute) URL to the
data the scraper reads off that page: the hrefs of its "view all" buttons,
the hrefs of its video-card links (both already resolved to absolute URLs,
as `new URL(href, baseUrl).href` does), and the MP3 download link if one of
the download selectors matches.  A URL not in the list stands for a page
whose `page.goto` throws (the error is caught and the branch abandoned).

`scrapeRecursively` is the JS recursion rendered with an explicit stack of
pending frames, which preserves its depth-first order exactly: a `branch`
frame is a call to `scrapeRecursively(url, depth)`, a `video` frame is a call
to `extractMp3FromVideoPage(url, depth)` (reached via `extractVideoLinks` or
`checkNestedVideoLinks`).  Both kinds of call first test the shared
`visitedUrls` ledger and return at once on a hit; otherwise they add the URL
to the ledger and only then navigate, so the returned trace `navs` lists the
`page.goto` calls in order.  The `Bool` result is `false` only when the fuel
ran out before the stack emptied. -/

structure SitePage where
  viewAllLinks : List String
  videoLinks : List String
  downloadLink : Option String
deriving DecidableEq

abbrev SiteGraph := List (String × SitePage)

def lookupPage (g : SiteGraph) (url : String) : Option SitePage :=
  match g.find? (fun e => e.1 == url) with
  | some e => some e.2
  | none => none

inductive Frame where
  | branch (url : String) (depth : Nat)
  | video (url : String) (depth : Nat)
deriving DecidableEq

def Frame.url : Frame → String
  | .branch u _ => u
  | .video u _ => u

def scrapeRecursively (g : SiteGraph) (maxDepth : Nat) :
    Nat → List String → List Frame → List String → Bool × List String × List String
  | 0, visited, _, navs => (false, visited, navs)
  | _ + 1, visited, [], navs => (true, visited, navs)
  | fuel + 1, visited, .branch url depth :: stack, navs =>
    if url ∈ visited ∨ maxDepth < depth then
      scrapeRecursively g maxDepth fuel visited stack navs
    else
      match lookupPage g url with
      | none => scrapeRecursively g maxDepth fuel (url :: visited) stack (navs ++ [url])
      | some page =>
        if page.viewAllLinks.isEmpty then
          scrapeRecursively g maxDepth fuel (url :: visited)
            (page.videoLinks.map (fun v => Frame.video v (depth + 1)) ++ stack) (navs ++ [url])
        else
          scrapeRecursively g maxDepth fuel (url :: visited)
            (page.viewAllLinks.map (fun v => Frame.branch v (depth + 1)) ++ stack) (navs ++ [url])
  | fuel + 1, visited, .video url depth :: stack, navs =>
    if url ∈ visited then
      scrapeRecursively g maxDepth fuel visited stack navs
    else
      match lookupPage g url with
      | none => scrapeRecursively g maxDepth fuel (url :: visited) stack (navs ++ [url])
      | some page =>
        match page.downloadLink with
        | some _ => scrapeRecursively g maxDepth fuel (url :: visited) stack (navs ++ [url])
        | none =>
          scrapeRecursively g maxDepth fuel (url :: visited)
            ((page.videoLinks.filter
                (fun v => decide (v ≠ url ∧ v ∉ url :: visited))).map
              (fun v => Frame.video v (depth + 1)) ++ stack) (navs ++ [url])

/-- Every URL a run can ever see: the page keys together with every link
target appearing on any page. -/
def urlsOf (g : SiteGraph) : List String :=
  g.flatMap (fun e => e.1 :: (e.2.viewAllLinks ++ e.2.videoLinks))

/-- An upper bound on how many frames one page visit can push. -/
def maxWidth (g : SiteGraph) : Nat :=
  g.foldr (fun e acc => max acc (max e.2.viewAllLinks.length e.2.videoLinks.length)) 0

/-- How many URLs of `U` the ledger has not yet recorded. -/
def unseenCount (U visited : List String) : Nat :=
  (U.filter (fun u => decide (u ∉ visited))).length

/-- Fuel that provably suffices for a full run from `start` (see
`scrapeRecursively_terminates_no_revisit`). -/
def fuelBound (g : SiteGraph) (start : String) : Nat :=
  (start :: urlsOf g).length * (maxWidth g + 2) + 2

/-! ## mp3_scraper.js: checkForCaptcha

A page state carries, for each CSS selector, whether `page.$(selector)`
found an element and whether that element had `offsetParent !== null`
(`p.query sel = some isVisible`, `none` when nothing matched or the check
threw), together with the page title, URL, and `document.body.innerText`
(`none` when reading it threw). -/

structure CaptchaPage where
  query : String → Option Bool
  title : String
  url : String
  bodyText : Option String

def activeCaptchaSelectors : List String :=
  ["iframe[src*=\"recaptcha\"]:not([style*=\"display: none\"])",
   "div[class*=\"g-recaptcha\"]:not([style*=\"display: none\"])",
   "div[id*=\"recaptcha\"]:not([style*=\"display: none\"])",
   "div.captcha-container:not([style*=\"display: none\"])",
   "form[action*=\"captcha\"]"]

def challengePhrases : List String :=
  ["verify you are not a robot",
   "prove you are human",
   "complete the security check",
   "i am not a robot",
   "please verify that you are a human"]

/-- First block of `checkForCaptcha`: some selector matches a visible element. -/
def captchaElementSignal (p : CaptchaPage) : Bool :=
  activeCaptchaSelectors.any (fun sel =>
    match p.query sel with
    | some isVisible => isVisible
    | none => false)

/-- Second block: the `captchaIndicators` list over title and URL. -/
def captchaPageSignal (title url : String) : Bool :=
  let titleL := strLower title
  let urlL := strLower url
  [strIncludes titleL "security check",
   strIncludes titleL "verify you are human",
   strIncludes titleL "captcha" && strIncludes titleL "challenge",
   strIncludes titleL "bot protection",
   strIncludes urlL "/captcha",
   strIncludes titleL "cloudflare" && strIncludes titleL "checking"].any id

/-- Third block: a challenge phrase in the visible body text. -/
def captchaTextSignal (bodyText : Option String) : Bool :=
  match bodyText with
  | some visibleText =>
    let visibleLower := strLower visibleText
    challengePhrases.any (fun phrase => strIncludes visibleLower phrase)
  | none => false

def checkForCaptcha (p : CaptchaPage) : Bool :=
  if captchaElementSignal p then true
  else if captchaPageSignal p.title p.url then true
  else captchaTextSignal p.bodyText

/-! ## extractMetadata (mp3_scraper.js and paginated_scraper.js)

For each metadata field the page model lists, per selector in the configured
order, what the scraper would read: for the single-valued fields
`some text` when `page.$(selector)` matched an element with that `innerText`
and `none` when nothing matched; for `topics`, the `innerText`s of all
elements matching that selector. -/

structure FieldPage where
  title : List (Option String)
  author : List (Option String)
  topics : List (List String)
  podcast : List (Option String)
  synopsis : List (Option String)

namespace MP3Scraper

def extractTitle : List (Option String) → Option String
  | [] => none
  | none :: rest => extractTitle rest
  | some t :: rest =>
    if t ≠ "" ∧ trimS t ≠ "" then some (trimS t) else extractTitle rest

def extractAuthor : List (Option String) → Option String
  | [] => none
  | none :: rest => extractAuthor rest
  | some t :: _ => some (trimS t)

def extractTopics : List (List String) → Option (List String)
  | [] => none
  | sel :: rest =>
    let topics := (sel.filter (fun t => t ≠ "")).map trimS
    if topics ≠ [] then some topics else extractTopics rest

def extractPodcast : List (Option String) → Option String
  | [] => none
  | none :: rest => extractPodcast rest
  | some t :: _ => some (trimS t)

def extractSynopsis : List (Option String) → Option String
  | [] => none
  | none :: rest => extractSynopsis rest
  | some t :: rest =>
    if t ≠ "" ∧ trimS t ≠ "" then some (trimS t) else extractSynopsis rest

def extractMetadata (p : FieldPage) : Mp3Metadata :=
  { title := extractTitle p.title
    author := extractAuthor p.author
    topics := extractTopics p.topics
    podcast := extractPodcast p.podcast
    synopsis := extractSynopsis p.synopsis }

end MP3Scraper

namespace PaginatedScraper

def extractTitle : List (Option String) → Option String
  | [] => none
  | none :: rest => extractTitle rest
  | some t :: rest =>
    if t ≠ "" ∧ trimS t ≠ "" then some (trimS t) else extractTitle rest

def extractAuthor : List (Option String) → Option String
  | [] => none
  | none :: rest => extractAuthor rest
  | some t :: rest =>
    if t ≠ "" ∧ trimS t ≠ "" then some (trimS t) else extractAuthor rest

def extractTopics : List (List String) → Option (List String)
  | [] => none
  | sel :: rest =>
    let topics := (sel.filter (fun t => t ≠ "" && trimS t ≠ "")).map trimS
    if topics ≠ [] then some topics else extractTopics rest

def extractPodcast : List (Option String) → Option String
  | [] => none
  | none :: rest => extractPodcast rest
  | some t :: rest =>
    if t ≠ "" ∧ trimS t ≠ "" then some (trimS t) else extractPodcast rest

def extractSynopsis : List (Option String) → Option String
  | [] => none
  | none :: rest => extractSynopsis rest
  | some t :: rest =>
    if t ≠ "" ∧ trimS t ≠ "" then some (trimS t) else extractSynopsis rest

def extractMetadata (p : FieldPage) : Mp3Metadata :=
  { title := extractTitle p.title
    author := extractAuthor p.author
    topics := extractTopics p.topics
    podcast := extractPodcast p.podcast
    synopsis := extractSynopsis p.synopsis }

end PaginatedScraper

/-! ## paginated_scraper.js: the two-phase pagination run

Phase 1 (`collectAllVideoUrls`): each listing page contributes the hrefs its
selectors matched, in DOM order; `scrapeCurrentPage` keeps those containing
`/aid/`, resolves them against `BASE_URL`, and deduplicates them through a
`processedUrls` set that is local to the single page.  The per-page results
are appended to `allVideoData` with no cross-page check.

Phase 2 (`extractMetadataFromAllVideos`): for every collected entry, in
order, `extractMp3FromVideoPage` unconditionally calls `page.goto` on its
URL — there is no visitation ledger in this script — so the phase's
navigation trace is exactly the collected list. -/

def BASE_URL : String := "https://www.chabad.org"

def scrapeCurrentPageAux (seen : List String) : List String → List String
  | [] => []
  | href :: rest =>
    if strIncludes href "/aid/" then
      let fullUrl := if strStartsWith href "http" then href else BASE_URL ++ href
      if fullUrl ∈ seen then scrapeCurrentPageAux seen rest
      else fullUrl :: scrapeCurrentPageAux (fullUrl :: seen) rest
    else scrapeCurrentPageAux seen rest

def scrapeCurrentPage (hrefs : List String) : List String :=
  scrapeCurrentPageAux [] hrefs

def collectAllVideoUrls (pages : List (List String)) : List String :=
  (pages.map scrapeCurrentPage).flatten

/-- The `page.goto` targets of phase 2, in order: one navigation per
collected entry, with no visited check. -/
def extractMetadataFromAllVideos (allVideoData : List String) : List String :=
  allVideoData

/-! ## Concrete fixtures used by witnesses and counterexamples -/

def bereishitRecord : ContentRecord :=
  { videoUrl := "https://www.chabad.org/multimedia/video_cdo/aid/4886452/jewish/Rabbi-Gordon-Bereishit.htm"
    downloadUrl := "https://www.chabad.org/multimedia/filedownload_cdo/aid/4886452"
    metadata := { title := some "Rabbi Gordon: Bereishit!", author := none, topics := none,
                  podcast := none, synopsis := none }
    scrapedAt := "2024-01-01T12:00:00.000Z" }

/-- A record whose source URL contains `/multimedia/video_cdo/aid/4886452/` yet
also contains `/library/tanya/` and an earlier `/aid/<digits>` occurrence. -/
def tanyaAidRecord : ContentRecord :=
  { bereishitRecord with
    videoUrl := "https://www.chabad.org/library/tanya/x/aid/9/multimedia/video_cdo/aid/4886452/jewish/x.htm" }

def titlelessRecord : ContentRecord :=
  { videoUrl := "https://www.chabad.org/multimedia/video_cdo/aid/111/x.htm"
    downloadUrl := "https://www.chabad.org/multimedia/filedownload_cdo/aid/111"
    metadata := { title := none, author := none, topics := none, podcast := none, synopsis := none }
    scrapedAt := "2024-01-01T12:00:00.000Z" }

/-- A page whose only CAPTCHA-selector hit is an element with no visible
bounding box (`offsetParent === null`), and whose title, URL and body text
carry no challenge phrase. -/
def dormantWidgetPage : CaptchaPage :=
  { query := fun sel => if sel = "form[action*=\"captcha\"]" then some false else none
    title := "Parshah With Rabbi Gordon - Bereishit"
    url := "https://www.chabad.org/multimedia/video_cdo/aid/935151/jewish/Parshah-With-Rabbi-Gordon.htm"
    bodyText := some "Watch Rabbi Gordon teach the daily Chumash portion." }

/-- A page whose first author selector matches a whitespace-only element and
whose second matches a real author name. -/
def emptyAuthorPage : FieldPage :=
  { title := []
    author := [some " ", some "Yehoshua B. Gordon"]
    topics := []
    podcast := []
    synopsis := [] }

/-! ## Helper lemmas -/

theorem length_filter_mono {α : Type} (U : List α) (p q : α → Bool)
    (h : ∀ u, q u = true → p u = true) :
    (U.filter q).length ≤ (U.filter p).length := by
  induction U with
  | nil => simp
  | cons a t ih =>
    rw [List.filter_cons, List.filter_cons]
    by_cases hq : q a = true
    · rw [if_pos hq, if_pos (h a hq)]
      simpa using ih
    · rw [if_neg hq]
      by_cases hp : p a = true
      · rw [if_pos hp]
        exact le_trans ih (by simp)
      · rw [if_neg hp]
        exact ih

theorem length_filter_ne_lt {l : List String} {url : String} (h : url ∈ l) :
    (l.filter (fun u => decide (u ≠ url))).length < l.length := by
  induction l with
  | nil => simp at h
  | cons a t ih =>
    rw [List.filter_cons]
    rcases List.mem_cons.mp h with rfl | h'
    · rw [if_neg (by simp)]
      have := List.length_filter_le (fun u => decide (u ≠ url)) t
      simpa using Nat.lt_succ_of_le this
    · by_cases ha : a = url
      · rw [if_neg (by simp [ha])]
        have := List.length_filter_le (fun u => decide (u ≠ url)) t
        simpa using Nat.lt_succ_of_le this
      · rw [if_pos (by simpa using ha)]
        simpa using ih h'

theorem unseenCount_cons_lt (U visited : List String) (url : String)
    (hmem : url ∈ U) (hnot : url ∉ visited) :
    unseenCount U (url :: visited) < unseenCount U visited := by
  unfold unseenCount
  have hrw : U.filter (fun u => decide (u ∉ url :: visited)) =
      (U.filter (fun u => decide (u ∉ visited))).filter (fun u => decide (u ≠ url)) := by
    rw [List.filter_filter]
    apply List.filter_congr
    intro u _
    by_cases h1 : u = url <;> by_cases h2 : u ∈ visited <;> simp [h1, h2]
  rw [hrw]
  apply length_filter_ne_lt
  simp [List.mem_filter, hmem, hnot]

theorem maxWidth_bound (g : SiteGraph) (e : String × SitePage) (he : e ∈ g) :
    e.2.viewAllLinks.length ≤ maxWidth g ∧ e.2.videoLinks.length ≤ maxWidth g := by
  induction g with
  | nil => simp at he
  | cons x t ih =>
    have hfold : maxWidth (x :: t) =
        max (maxWidth t) (max x.2.viewAllLinks.length x.2.videoLinks.length) := rfl
    rcases List.mem_cons.mp he with rfl | he'
    · rw [hfold]
      exact ⟨le_max_of_le_right (le_max_left _ _), le_max_of_le_right (le_max_right _ _)⟩
    · rw [hfold]
      exact ⟨le_max_of_le_left (ih he').1, le_max_of_le_left (ih he').2⟩

theorem lookupPage_mem (g : SiteGraph) (url : String) (page : SitePage)
    (hlk : lookupPage g url = some page) : ∃ e ∈ g, e.2 = page := by
  unfold lookupPage at hlk
  cases hfind : g.find? (fun e => e.1 == url) with
  | none => rw [hfind] at hlk; cases hlk
  | some e =>
    rw [hfind] at hlk
    exact ⟨e, List.mem_of_find?_eq_some hfind, by injection hlk⟩

theorem lookupPage_width (g : SiteGraph) (url : String) (page : SitePage)
    (hlk : lookupPage g url = some page) :
    page.viewAllLinks.length ≤ maxWidth g ∧ page.videoLinks.length ≤ maxWidth g := by
  obtain ⟨e, he, hep⟩ := lookupPage_mem g url page hlk
  rw [← hep]
  exact maxWidth_bound g e he

theorem lookupPage_links (g : SiteGraph) (url : String) (page : SitePage)
    (hlk : lookupPage g url = some page) :
    ∀ v, (v ∈ page.viewAllLinks ∨ v ∈ page.videoLinks) → v ∈ urlsOf g := by
  obtain ⟨e, he, hep⟩ := lookupPage_mem g url page hlk
  intro v hv
  unfold urlsOf
  rw [List.mem_flatMap]
  refine ⟨e, he, ?_⟩
  rw [hep]
  rcases hv with h | h <;> simp [h]

/-- Ledger invariant of the traversal: the navigation trace stays
duplicate-free because a URL is recorded in `visitedUrls` before `page.goto`
is called on it and every frame checks the ledger first. -/
theorem scrapeRecursively_navs_nodup (g : SiteGraph) (maxD : Nat) :
    ∀ (fuel : Nat) (stack : List Frame) (visited navs : List String),
      navs.Nodup → (∀ u ∈ navs, u ∈ visited) →
      ((scrapeRecursively g maxD fuel visited stack navs).2.2).Nodup := by
  intro fuel
  induction fuel with
  | zero =>
    intro stack visited navs h1 _
    simpa [scrapeRecursively] using h1
  | succ fuel ih =>
    intro stack visited navs h1 h2
    match stack with
    | [] => simpa [scrapeRecursively] using h1
    | .branch url depth :: stack =>
      have hgen : ∀ (stack' : List Frame), url ∉ visited →
          ((scrapeRecursively g maxD fuel (url :: visited) stack' (navs ++ [url])).2.2).Nodup := by
        intro stack' hurl
        apply ih
        · refine List.Nodup.append h1 (List.nodup_singleton url) ?_
          intro a ha hb
          simp only [List.mem_singleton] at hb
          subst hb
          exact hurl (h2 _ ha)
        · intro u hu
          rcases List.mem_append.mp hu with h | h
          · exact List.mem_cons_of_mem _ (h2 u h)
          · simp only [List.mem_singleton] at h
            subst h
            exact List.mem_cons_self _ _
      rw [scrapeRecursively]
      by_cases hv : url ∈ visited ∨ maxD < depth
      · rw [if_pos hv]
        exact ih stack visited navs h1 h2
      · rw [if_neg hv]
        push_neg at hv
        cases hlk : lookupPage g url with
        | none =>
          simp only [hlk]
          exact hgen stack hv.1
        | some page =>
          simp only [hlk]
          by_cases hva : page.viewAllLinks.isEmpty
          · rw [if_pos hva]
            exact hgen _ hv.1
          · rw [if_neg hva]
            exact hgen _ hv.1
    | .video url depth :: stack =>
      have hgen : ∀ (stack' : List Frame), url ∉ visited →
          ((scrapeRecursively g maxD fuel (url :: visited) stack' (navs ++ [url])).2.2).Nodup := by
        intro stack' hurl
        apply ih
        · refine List.Nodup.append h1 (List.nodup_singleton url) ?_
          intro a ha hb
          simp only [List.mem_singleton] at hb
          subst hb
          exact hurl (h2 _ ha)
        · intro u hu
          rcases List.mem_append.mp hu with h | h
          · exact List.mem_cons_of_mem _ (h2 u h)
          · simp only [List.mem_singleton] at h
            subst h
            exact List.mem_cons_self _ _
      rw [scrapeRecursively]
      by_cases hv : url ∈ visited
      · rw [if_pos hv]
        exact ih stack visited navs h1 h2
      · rw [if_neg hv]
        cases hlk : lookupPage g url with
        | none =>
          simp only [hlk]
          exact hgen stack hv
        | some page =>
          simp only [hlk]
          cases page.downloadLink with
          | some d => exact hgen stack hv
          | none => exact hgen _ hv

/-- Fuel sufficiency: with fuel exceeding the measure
`pending frames + unseen URLs * (page width + 2)` the traversal drains its
stack, because every navigation permanently shrinks the unseen-URL count. -/
theorem scrapeRecursively_completes (g : SiteGraph) (maxD : Nat) (U : List String)
    (hU : ∀ v ∈ urlsOf g, v ∈ U) :
    ∀ (fuel : Nat) (stack : List Frame) (visited navs : List String),
      (∀ f ∈ stack, f.url ∈ U) →
      stack.length + unseenCount U visited * (maxWidth g + 2) < fuel →
      (scrapeRecursively g maxD fuel visited stack navs).1 = true := by
  intro fuel
  induction fuel with
  | zero =>
    intro stack visited navs _ hm
    omega
  | succ fuel ih =>
    intro stack visited navs hst hm
    match stack with
    | [] => rw [scrapeRecursively]
    | .branch url depth :: stack =>
      have hurlU : url ∈ U := hst _ (List.mem_cons_self _ _)
      have hstack : ∀ f ∈ stack, f.url ∈ U := fun f hf => hst f (List.mem_cons_of_mem _ hf)
      rw [scrapeRecursively]
      by_cases hv : url ∈ visited ∨ maxD < depth
      · rw [if_pos hv]
        apply ih _ _ _ hstack
        simp only [List.length_cons] at hm
        omega
      · rw [if_neg hv]
        push_neg at hv
        have hdec := unseenCount_cons_lt U visited url hurlU hv.1
        cases hlk : lookupPage g url with
        | none =>
          simp only [hlk]
          apply ih _ _ _ hstack
          have hle := Nat.mul_le_mul_right (maxWidth g + 2) (Nat.le_of_lt_succ (Nat.lt_succ_of_lt hdec))
          set X := unseenCount U (url :: visited) * (maxWidth g + 2) with hX
          set Y := unseenCount U visited * (maxWidth g + 2) with hY
          have hXY : X + (maxWidth g + 2) ≤ Y := by
            rw [hX, hY]
            have h1 : unseenCount U (url :: visited) + 1 ≤ unseenCount U visited := hdec
            calc unseenCount U (url :: visited) * (maxWidth g + 2) + (maxWidth g + 2)
                = (unseenCount U (url :: visited) + 1) * (maxWidth g + 2) := by ring
              _ ≤ unseenCount U visited * (maxWidth g + 2) := Nat.mul_le_mul_right _ h1
          simp only [List.length_cons] at hm
          omega
        | some page =>
          simp only [hlk]
          have hwidth := lookupPage_width g url page hlk
          have hlinks := lookupPage_links g url page hlk
          have hXY : unseenCount U (url :: visited) * (maxWidth g + 2) + (maxWidth g + 2) ≤
              unseenCount U visited * (maxWidth g + 2) := by
            have h1 : unseenCount U (url :: visited) + 1 ≤ unseenCount U visited := hdec
            calc unseenCount U (url :: visited) * (maxWidth g + 2) + (maxWidth g + 2)
                = (unseenCount U (url :: visited) + 1) * (maxWidth g + 2) := by ring
              _ ≤ unseenCount U visited * (maxWidth g + 2) := Nat.mul_le_mul_right _ h1
          by_cases hva : page.viewAllLinks.isEmpty
          · rw [if_pos hva]
            apply ih
            · intro f hf
              rcases List.mem_append.mp hf with h | h
              · obtain ⟨v, hv', hfv⟩ := List.mem_map.mp h
                rw [← hfv]
                exact hU v (hlinks v (Or.inr hv'))
              · exact hstack f h
            · rw [List.length_append, List.length_map]
              set X := unseenCount U (url :: visited) * (maxWidth g + 2) with hX
              set Y := unseenCount U visited * (maxWidth g + 2) with hY
              simp only [List.length_cons] at hm
              have hw := hwidth.2
              omega
          · rw [if_neg hva]
            apply ih
            · intro f hf
              rcases List.mem_append.mp hf with h | h
              · obtain ⟨v, hv', hfv⟩ := List.mem_map.mp h
                rw [← hfv]
                exact hU v (hlinks v (Or.inl hv'))
              · exact hstack f h
            · rw [List.length_append, List.length_map]
              set X := unseenCount U (url :: visited) * (maxWidth g + 2) with hX
              set Y := unseenCount U visited * (maxWidth g + 2) with hY
              simp only [List.length_cons] at hm
              have hw := hwidth.1
              omega
    | .video url depth :: stack =>
      have hurlU : url ∈ U := hst _ (List.mem_cons_self _ _)
      have hstack : ∀ f ∈ stack, f.url ∈ U := fun f hf => hst f (List.mem_cons_of_mem _ hf)
      rw [scrapeRecursively]
      by_cases hv : url ∈ visited
      · rw [if_pos hv]
        apply ih _ _ _ hstack
        simp only [List.length_cons] at hm
        omega
      · rw [if_neg hv]
        have hdec := unseenCount_cons_lt U visited url hurlU hv
        have hXY : unseenCount U (url :: visited) * (maxWidth g + 2) + (maxWidth g + 2) ≤
            unseenCount U visited * (maxWidth g + 2) := by
          have h1 : unseenCount U (url :: visited) + 1 ≤ unseenCount U visited := hdec
          calc unseenCount U (url :: visited) * (maxWidth g + 2) + (maxWidth g + 2)
              = (unseenCount U (url :: visited) + 1) * (maxWidth g + 2) := by ring
            _ ≤ unseenCount U visited * (maxWidth g + 2) := Nat.mul_le_mul_right _ h1
        cases hlk : lookupPage g url with
        | none =>
          simp only [hlk]
          apply ih _ _ _ hstack
          set X := unseenCount U (url :: visited) * (maxWidth g + 2) with hX
          set Y := unseenCount U visited * (maxWidth g + 2) with hY
          simp only [List.length_cons] at hm
          omega
        | some page =>
          simp only [hlk]
          have hwidth := lookupPage_width g url page hlk
          have hlinks := lookupPage_links g url page hlk
          cases hdl : page.downloadLink with
          | some d =>
            apply ih _ _ _ hstack
            set X := unseenCount U (url :: visited) * (maxWidth g + 2) with hX
            set Y := unseenCount U visited * (maxWidth g + 2) with hY
            simp only [List.length_cons] at hm
            omega
          | none =>
            apply ih
            · intro f hf
              rcases List.mem_append.mp hf with h | h
              · obtain ⟨v, hv', hfv⟩ := List.mem_map.mp h
                rw [← hfv]
                have hv'' := (List.mem_filter.mp hv').1
                exact hU v (hlinks v (Or.inr hv''))
              · exact hstack f h
            · rw [List.length_append, List.length_map]
              have hfl : (page.videoLinks.filter
                  (fun v => decide (v ≠ url ∧ v ∉ url :: visited))).length ≤
                  page.videoLinks.length := List.length_filter_le _ _
              set X := unseenCount U (url :: visited) * (maxWidth g + 2) with hX
              set Y := unseenCount U visited * (maxWidth g + 2) with hY
              simp only [List.length_cons] at hm
              have hw := hwidth.2
              omega

/-- Per-page dedup invariant of `scrapeCurrentPage`: its output never repeats
a URL and never emits one already in the `processedUrls` set. -/
theorem scrapeCurrentPageAux_nodup : ∀ (hrefs seen : List String),
    (scrapeCurrentPageAux seen hrefs).Nodup ∧
    ∀ u ∈ scrapeCurrentPageAux seen hrefs, u ∉ seen := by
  intro hrefs
  induction hrefs with
  | nil =>
    intro seen
    simp [scrapeCurrentPageAux]
  | cons href rest ih =>
    intro seen
    simp only [scrapeCurrentPageAux]
    by_cases h1 : strIncludes href "/aid/" = true
    · rw [if_pos h1]
      by_cases h2 : (if strStartsWith href "http" then href else BASE_URL ++ href) ∈ seen
      · rw [if_pos h2]
        exact ih seen
      · rw [if_neg h2]
        obtain ⟨ihn, ihs⟩ := ih ((if strStartsWith href "http" then href else BASE_URL ++ href) :: seen)
        constructor
        · rw [List.nodup_cons]
          exact ⟨fun hmem => ihs _ hmem (List.mem_cons_self _ _), ihn⟩
        · intro u hu
          rcases List.mem_cons.mp hu with rfl | hu'
          · exact h2
          · intro hus
            exact ihs u hu' (List.mem_cons_of_mem _ hus)
    · rw [if_neg h1]
      exact ih seen

/-! ## Claim theorems -/

/-- C1 counterexample: a record whose source-page URL contains
`/multimedia/video_cdo/aid/4886452/` and whose title is
"Rabbi Gordon: Bereishit!" need not yield the claimed key at index 1:
the URL may also contain `/library/tanya/` (classified first) and an earlier
`/aid/<digits>` occurrence (the regex takes the first match), giving
`tanya/.../9/...` instead. -/
theorem generateS3Key_counterexample :
    strIncludes tanyaAidRecord.videoUrl "/multimedia/video_cdo/aid/4886452/" = true ∧
    tanyaAidRecord.metadata.title = some "Rabbi Gordon: Bereishit!" ∧
    generateS3Key tanyaAidRecord 1 =
      some "tanya/rabbi-gordon-bereishit/9/0001-rabbi-gordon-bereishit.mp3" ∧
    generateS3Key tanyaAidRecord 1 ≠
      some "rabbi-gordon/rabbi-gordon-bereishit/4886452/0001-rabbi-gordon-bereishit.mp3" := by
  refine ⟨rfl, rfl, rfl, by decide⟩

/-- C1 (amended): `generateS3Key` is a pure deterministic function of the
record's source URL and title together with the 1-based index; and for every
record whose source URL contains `/multimedia/video_cdo/`, does not contain
`/library/tanya/`, whose first `/aid/<digits>` occurrence has digits 4886452,
and whose title is "Rabbi Gordon: Bereishit!", index 1 derives the key
`rabbi-gordon/rabbi-gordon-bereishit/4886452/0001-rabbi-gordon-bereishit.mp3`. -/
theorem generateS3Key_amended (r r' : ContentRecord) (i : Nat)
    (hvu : strIncludes r.videoUrl "/multimedia/video_cdo/" = true)
    (htanya : strIncludes r.videoUrl "/library/tanya/" = false)
    (haid : extractAid r.videoUrl = some "4886452")
    (htitle : r.metadata.title = some "Rabbi Gordon: Bereishit!")
    (hu : r'.videoUrl = r.videoUrl) (hm : r'.metadata.title = r.metadata.title) :
    generateS3Key r 1 =
      some "rabbi-gordon/rabbi-gordon-bereishit/4886452/0001-rabbi-gordon-bereishit.mp3" ∧
    generateS3Key r' i = generateS3Key r i := by
  constructor
  · unfold generateS3Key
    rw [htitle, haid]
    simp only [htanya, hvu]
    rfl
  · unfold generateS3Key
    rw [hu, hm]

/-- C1 witness: the genuine Rabbi Gordon Bereishit page URL satisfies the
amended hypotheses and derives the claimed key. -/
theorem generateS3Key_amended_witness :
    generateS3Key bereishitRecord 1 =
      some "rabbi-gordon/rabbi-gordon-bereishit/4886452/0001-rabbi-gordon-bereishit.mp3" :=
  (generateS3Key_amended bereishitRecord bereishitRecord 1 rfl rfl rfl rfl rfl rfl).1

/-- C2: for every site graph (cyclic ones included) and every `maxDepth`, the
recursive expand traversal drains its worklist with the computed fuel bound —
it terminates — and its navigation trace contains no URL twice, because each
URL is recorded in the visited ledger before `page.goto` and an
already-visited URL returns immediately. -/
theorem scrapeRecursively_terminates_no_revisit (g : SiteGraph) (maxDepth : Nat) (start : String) :
    (scrapeRecursively g maxDepth (fuelBound g start) [] [Frame.branch start 0] []).1 = true ∧
    ((scrapeRecursively g maxDepth (fuelBound g start) [] [Frame.branch start 0] []).2.2).Nodup := by
  constructor
  · apply scrapeRecursively_completes g maxDepth (start :: urlsOf g)
      (fun v hv => List.mem_cons_of_mem _ hv)
    · intro f hf
      simp only [List.mem_singleton] at hf
      subst hf
      exact List.mem_cons_self _ _
    · have hcount : unseenCount (start :: urlsOf g) [] = (start :: urlsOf g).length := by
        unfold unseenCount
        simp
      rw [hcount]
      unfold fuelBound
      set K := (start :: urlsOf g).length * (maxWidth g + 2) with hK
      simp only [List.length_singleton]
      omega
  · exact scrapeRecursively_navs_nodup g maxDepth _ _ _ _ List.nodup_nil (by simp)

/-- C3 counterexample: the pagination strategy has no visitation ledger — the
same video URL discovered on two listing pages is navigated twice by the
metadata-extraction phase, refuting "visits that URL only once". -/
theorem pagination_revisit_counterexample :
    (extractMetadataFromAllVideos (collectAllVideoUrls
        [["/multimedia/video_cdo/aid/111/x.htm"], ["/multimedia/video_cdo/aid/111/x.htm"]])).count
      "https://www.chabad.org/multimedia/video_cdo/aid/111/x.htm" = 2 ∧
    ¬ (extractMetadataFromAllVideos (collectAllVideoUrls
        [["/multimedia/video_cdo/aid/111/x.htm"], ["/multimedia/video_cdo/aid/111/x.htm"]])).Nodup := by
  decide

/-- C3 (amended): only the recursive expand strategy consults the visitation
ledger before visiting a ResourceRef, so it never navigates the same URL
twice in one run; the pagination strategy deduplicates discovered links only
within a single listing page, and its metadata phase navigates once per
collected entry, so a URL discovered on several listing pages is visited once
per such page. -/
theorem ledger_consultation_amended :
    (∀ (g : SiteGraph) (maxD fuel : Nat) (start : String),
      ((scrapeRecursively g maxD fuel [] [Frame.branch start 0] []).2.2).Nodup) ∧
    (∀ hrefs : List String, (scrapeCurrentPage hrefs).Nodup) ∧
    (∀ (pages : List (List String)) (u : String),
      (extractMetadataFromAllVideos (collectAllVideoUrls pages)).count u =
        ((pages.map scrapeCurrentPage).map (List.count u)).sum) := by
  refine ⟨?_, ?_, ?_⟩
  · intro g maxD fuel start
    exact scrapeRecursively_navs_nodup g maxD fuel _ _ _ List.nodup_nil (by simp)
  · intro hrefs
    exact (scrapeCurrentPageAux_nodup hrefs []).1
  · intro pages u
    unfold extractMetadataFromAllVideos collectAllVideoUrls
    exact List.count_flatten u _

/-- C4: in a batch of three records where only the second record's retrieval
fails, records 1 and 3 still upload and are logged as successes, and the
persisted summary shows totalProcessed 3, successful 2, failed 1, and a
success rate of "66.67%". -/
theorem batchFailureIsolation (r1 r2 r3 : ContentRecord) (s1 s3 : Nat)
    (ht1 : r1.metadata.title.isSome) (ht3 : r3.metadata.title.isSome)
    (hs1 : 1000 ≤ s1) (hs3 : 1000 ≤ s3) :
    processAllMp3s 1 [(r1, some s1), (r2, none), (r3, some s3)] =
      (2, 1, [(1, "success"), (2, "failed"), (3, "success")]) ∧
    saveRAGMetadataSummary 2 1 = (3, 2, 1, "66.67%") := by
  obtain ⟨t1, ht1'⟩ := Option.isSome_iff_exists.mp ht1
  obtain ⟨t3, ht3'⟩ := Option.isSome_iff_exists.mp ht3
  constructor
  · have h1 : ¬ (s1 < 1000) := by omega
    have h3 : ¬ (s3 < 1000) := by omega
    simp [processAllMp3s, processSingleMp3, generateS3Key, ht1', ht3', h1, h3]
  · decide

/-- C4 witness: a concrete 3-record batch whose middle download fails. -/
theorem batchFailureIsolation_witness :
    processAllMp3s 1 [(bereishitRecord, some 5000), (titlelessRecord, none),
        (bereishitRecord, some 6000)] =
      (2, 1, [(1, "success"), (2, "failed"), (3, "success")]) ∧
    saveRAGMetadataSummary 2 1 = (3, 2, 1, "66.67%") :=
  batchFailureIsolation bereishitRecord titlelessRecord bereishitRecord 5000 6000
    (by decide) (by decide) (by omega) (by omega)

/-- C5: for every input string, `sanitizeMetadataValue` returns only printable
ASCII characters (0x20–0x7E, so no control characters and nothing non-ASCII)
and a result of length at most 1024. -/
theorem sanitizeMetadataValue_safe (v : String) :
    (∀ c ∈ (sanitizeMetadataValue v).data, 0x20 ≤ c.toNat ∧ c.toNat ≤ 0x7E) ∧
    (sanitizeMetadataValue v).length ≤ 1024 := by
  unfold sanitizeMetadataValue
  by_cases h : v = ""
  · simp [h, String.length]
  · simp only [if_neg h]
    refine ⟨?_, ?_⟩
    · intro c hc
      have hc1 : c ∈ ((((v.data.filter (fun c => 0x20 ≤ c.toNat && c.toNat ≤ 0x7E)).filter
          (fun c => !(c.toNat ≤ 0x1F || c.toNat == 0x7F))).dropWhile isJsWs).reverse.dropWhile
          isJsWs).reverse.take 1024 := hc
      have hc2 := List.mem_of_mem_take hc1
      have hc3 := List.mem_reverse.mp hc2
      have hc4 := List.Sublist.mem hc3 (List.dropWhile_sublist _)
      have hc5 := List.mem_reverse.mp hc4
      have hc6 := List.Sublist.mem hc5 (List.dropWhile_sublist _)
      have hc7 := (List.mem_filter.mp hc6).1
      have hc8 := (List.mem_filter.mp hc7).2
      simpa using hc8
    · show (String.mk _).length ≤ 1024
      simp [String.length, List.length_take]

/-- C6: on persistent failure `downloadAuthenticatedMp3` makes exactly
`retryAttempts` (3) attempts separated by fixed `retryDelay` (3000 ms)
delays and then fails; the per-record loop catches that failure, logs it,
and continues with the remaining records. -/
theorem downloadRetry_exhaustion (outcome : Nat → Bool) (hfail : ∀ i, outcome i = false)
    (r : ContentRecord) (rest : List (ContentRecord × Option Nat)) (i : Nat) :
    downloadAuthenticatedMp3 outcome 0 = (false, retryAttempts, [retryDelay, retryDelay]) ∧
    processAllMp3s i ((r, none) :: rest) =
      ((processAllMp3s (i + 1) rest).1, (processAllMp3s (i + 1) rest).2.1 + 1,
        (i, "failed") :: (processAllMp3s (i + 1) rest).2.2) := by
  constructor
  · simp [downloadAuthenticatedMp3, hfail, retryAttempts, retryDelay]
  · simp [processAllMp3s, processSingleMp3]

/-- C6 witness: an always-failing download oracle and a concrete batch. -/
theorem downloadRetry_exhaustion_witness :
    downloadAuthenticatedMp3 (fun _ => false) 0 = (false, retryAttempts, [retryDelay, retryDelay]) ∧
    processAllMp3s 1 [(titlelessRecord, none)] =
      ((processAllMp3s 2 []).1, (processAllMp3s 2 []).2.1 + 1,
        (1, "failed") :: (processAllMp3s 2 []).2.2) :=
  downloadRetry_exhaustion (fun _ => false) (fun _ => rfl) titlelessRecord [] 1

/-- C7: a page on which a CAPTCHA element is present in the DOM but has no
visible bounding box, and which carries no challenge title/URL phrase and no
visible challenge body text, makes `checkForCaptcha` return false — the gate
does not transition to CHALLENGED. -/
theorem checkForCaptcha_invisible_no_trigger (p : CaptchaPage)
    (_hpresent : ∃ sel ∈ activeCaptchaSelectors, p.query sel = some false)
    (hnovis : ∀ sel ∈ activeCaptchaSelectors, p.query sel ≠ some true)
    (hpage : captchaPageSignal p.title p.url = false)
    (htext : captchaTextSignal p.bodyText = false) :
    checkForCaptcha p = false := by
  have helem : captchaElementSignal p = false := by
    unfold captchaElementSignal
    rw [List.any_eq_false]
    intro sel hsel
    cases hq : p.query sel with
    | none => simp
    | some b =>
      cases b with
      | true => exact absurd hq (hnovis sel hsel)
      | false => simp
  simp [checkForCaptcha, helem, hpage, htext]

/-- C7 witness: a concrete page with a hidden captcha form and innocuous
title, URL and body text. -/
theorem checkForCaptcha_invisible_no_trigger_witness :
    checkForCaptcha dormantWidgetPage = false :=
  checkForCaptcha_invisible_no_trigger dormantWidgetPage
    ⟨"form[action*=\"captcha\"]", by decide, by decide⟩
    (by decide) (by decide) (by decide)

/-- C8 counterexample: in mp3_scraper.js the author field takes the FIRST
matched element even when its text is whitespace-only — the search stops and
yields the empty string instead of the later non-empty match, refuting
"first non-empty match wins" for every field. -/
theorem extractMetadata_empty_match_counterexample :
    (MP3Scraper.extractMetadata emptyAuthorPage).author = some "" ∧
    (MP3Scraper.extractMetadata emptyAuthorPage).author ≠ some "Yehoshua B. Gordon" := by
  decide

/-- C8 (amended): in mp3_scraper.js, title and synopsis skip empty or
whitespace-only matches, but author and podcast accept the first matched
element even if its trimmed text is empty; topics takes the first selector
whose non-empty-text elements form a non-empty list, collecting their trimmed
texts in order; in paginated_scraper.js all five fields skip empty or
whitespace-only matches; in both extractors, a page with no matches leaves
every field unset without error. -/
theorem extractMetadata_amended :
    (∀ (t : String) (rest : List (Option String)), trimS t = "" →
      MP3Scraper.extractTitle (some t :: rest) = MP3Scraper.extractTitle rest) ∧
    (∀ (t : String) (rest : List (Option String)), trimS t = "" →
      MP3Scraper.extractSynopsis (some t :: rest) = MP3Scraper.extractSynopsis rest) ∧
    (∀ (t : String) (rest : List (Option String)),
      MP3Scraper.extractAuthor (some t :: rest) = some (trimS t)) ∧
    (∀ (t : String) (rest : List (Option String)),
      MP3Scraper.extractPodcast (some t :: rest) = some (trimS t)) ∧
    (∀ (sel : List String) (rest : List (List String)),
      MP3Scraper.extractTopics (sel :: rest) =
        (if (sel.filter (fun t => t ≠ "")).map trimS ≠ [] then
          some ((sel.filter (fun t => t ≠ "")).map trimS)
         else MP3Scraper.extractTopics rest)) ∧
    (∀ (t : String) (rest : List (Option String)), trimS t = "" →
      PaginatedScraper.extractTitle (some t :: rest) = PaginatedScraper.extractTitle rest ∧
      PaginatedScraper.extractAuthor (some t :: rest) = PaginatedScraper.extractAuthor rest ∧
      PaginatedScraper.extractPodcast (some t :: rest) = PaginatedScraper.extractPodcast rest ∧
      PaginatedScraper.extractSynopsis (some t :: rest) = PaginatedScraper.extractSynopsis rest) ∧
    (∀ (sel : List String) (rest : List (List String)), (∀ t ∈ sel, trimS t = "") →
      PaginatedScraper.extractTopics (sel :: rest) = PaginatedScraper.extractTopics rest) ∧
    (MP3Scraper.extractMetadata ⟨[], [], [], [], []⟩ = ⟨none, none, none, none, none⟩ ∧
      PaginatedScraper.extractMetadata ⟨[], [], [], [], []⟩ = ⟨none, none, none, none, none⟩) := by
  refine ⟨?_, ?_, ?_, ?_, ?_, ?_, ?_, ?_, ?_⟩
  · intro t rest h
    simp [MP3Scraper.extractTitle, h]
  · intro t rest h
    simp [MP3Scraper.extractSynopsis, h]
  · intro t rest
    rfl
  · intro t rest
    rfl
  · intro sel rest
    rfl
  · intro t rest h
    refine ⟨?_, ?_, ?_, ?_⟩
    · simp [PaginatedScraper.extractTitle, h]
    · simp [PaginatedScraper.extractAuthor, h]
    · simp [PaginatedScraper.extractPodcast, h]
    · simp [PaginatedScraper.extractSynopsis, h]
  · intro sel rest h
    have hnil : sel.filter (fun t => decide (t ≠ "") && decide (trimS t ≠ "")) = [] := by
      rw [List.filter_eq_nil_iff]
      intro a ha
      simp [h a ha]
    simp only [PaginatedScraper.extractTopics]
    rw [hnil]
    simp
  · rfl
  · rfl

/-- C8 witness: concrete whitespace-only matches exercising the amended
behaviors of both extractors. -/
theorem extractMetadata_amended_witness :
    MP3Scraper.extractTitle [some " ", some "Rabbi Gordon - Vayikra"] =
      MP3Scraper.extractTitle [some "Rabbi Gordon - Vayikra"] ∧
    MP3Scraper.extractAuthor [some " "] = some (trimS " ") ∧
    (PaginatedScraper.extractTitle [some " "] = PaginatedScraper.extractTitle [] ∧
      PaginatedScraper.extractAuthor [some " "] = PaginatedScraper.extractAuthor [] ∧
      PaginatedScraper.extractPodcast [some " "] = PaginatedScraper.extractPodcast [] ∧
      PaginatedScraper.extractSynopsis [some " "] = PaginatedScraper.extractSynopsis []) ∧
    PaginatedScraper.extractTopics [[" "]] = PaginatedScraper.extractTopics [] :=
  ⟨extractMetadata_amended.1 " " [some "Rabbi Gordon - Vayikra"] (by decide),
   extractMetadata_amended.2.2.1 " " [],
   extractMetadata_amended.2.2.2.2.2.1 " " [] (by decide),
   extractMetadata_amended.2.2.2.2.2.2.1 [" "] [] (by decide)⟩

/-- C9: `checkLoginStatus` returns true for every session and page state —
the unconditional `basicCheck = true` short-circuits the function before any
page inspection, and the catch branch also returns true. -/
theorem checkLoginStatus_always_true (probe : Option String) :
    checkLoginStatus probe = true := rfl

/-- C10: `generateS3Key` is not total over ContentRecords — a record with no
title makes it throw (modelled as `none`), so per-record processing of a
title-less record fails before any upload is attempted, whatever the
download outcome. -/
theorem generateS3Key_missing_title (r : ContentRecord) (i : Nat) (dl : Option Nat)
    (h : r.metadata.title = none) :
    generateS3Key r i = none ∧ ∀ k, processSingleMp3 r i dl ≠ .uploaded k := by
  have hk : generateS3Key r i = none := by
    unfold generateS3Key
    rw [h]
  refine ⟨hk, ?_⟩
  intro k hcontra
  unfold processSingleMp3 at hcontra
  cases dl with
  | none => simp at hcontra
  | some s =>
    by_cases hs : s < 1000
    · simp [hs] at hcontra
    · simp [hs, hk] at hcontra

/-- C10 witness: a concrete title-less record with a successful download. -/
theorem generateS3Key_missing_title_witness :
    generateS3Key titlelessRecord 1 = none ∧
    ∀ k, processSingleMp3 titlelessRecord 1 (some 5000) ≠ .uploaded k :=
  generateS3Key_missing_title titlelessRecord 1 (some 5000) rfl
